import Mathlib

/-!
Shallow embedding of the `mainline` dependency-injection container
(`src/mainline.py`) and verification of the frozen claims about it.

The source is Python 2 (it uses `itertools.ifilterfalse`, `six`, old-style
`collections.MutableMapping`).  The embedding models:

* keys as `String`;
* Python object identity for resolved instances via `Value`: each factory
  invocation of an ordinary factory allocates a globally fresh `Value.fresh n`
  (so `is`-equality is `Value` equality), `Factory.const v` models the
  `lambda: obj` closure produced by `Registry.add_instance`, and `Value.diRef`
  designates the module-level `Di` container object itself;
* the mutable state of one `Di` container as `DiState`: the
  `ScopeRegistry._lookup` table, a heap of scope instances (Python objects,
  addressed by numeric ids), `Registry._factories`,
  `DependencyRegistry._depends_obj`, plus two ghost instrumentation fields
  (`counter` for fresh-value allocation and `invocations` counting how often
  each factory object has been called) and the current `pid`;
* exceptions as `Except PyErr`; a raised exception aborts the operation but
  keeps all state mutations performed so far, exactly as in Python, so every
  operation returns `Except PyErr α × DiState`.

Python 2 semantics facts baked into the embedding (each marked at its use
site): `collections.Mapping` sets `__hash__ = None`, so `Scope` instances are
unhashable and `scope in self._lookup` raises `TypeError` for them;
`issubclass(x, cls)` raises `TypeError` when `x` is not a class; an
`itertools.ifilterfalse` object is always truthy, even when it would yield no
elements; evaluating the undefined name `keys_or_keys` raises `NameError`.
-/

/-- Keys are opaque hashable identifiers; the claims use strings. -/
abbrev Key := String

/-- Python object identity for values handled by the container. -/
inductive Value where
  /-- An object freshly constructed by the n-th factory invocation. -/
  | fresh (n : Nat)
  /-- A pre-existing caller-supplied object (e.g. one given to
  `register_instance`). -/
  | ext (n : Nat)
  /-- The module-level `Di` container object itself. -/
  | diRef
deriving DecidableEq, Repr

/-- A factory: either an ordinary zero-argument callable producing a new
object on every call, or the `lambda: obj` closure built by
`Registry.add_instance` that always returns the fixed object `v`.  The `id`
distinguishes factory objects for invocation counting. -/
inductive Factory where
  | make (id : Nat)
  | const (v : Value)
deriving DecidableEq, Repr

/-- The scope classes of `src/mainline.py`: `Scope` itself, `SingletonScope`,
`ProcessScope`, `ThreadScope`, `NoneScope`, `NamedScope`. -/
inductive ScopeKind where
  | base
  | singleton
  | process
  | thread
  | none_
  | named
deriving DecidableEq, Repr

/-- A transformed key, the result of `Scope.__key_transform__`.  All scopes
use the identity transform except `ProcessScope`, which prefixes the current
process id (`'%s_%s' % (os.getpid(), key)`; the pid is an integer so the
first underscore delimits unambiguously, making the pair encoding faithful). -/
inductive TKey where
  | plain (k : Key)
  | proc (pid : Nat) (k : Key)
deriving DecidableEq, Repr

/-- Python exceptions that the modelled code can raise. -/
inductive PyErr where
  | unresolvable (msg : String)
  | keyError (msg : String)
  | typeError (msg : String)
  | nameError (msg : String)
  | attributeError (msg : String)
  | indexError (msg : String)
deriving DecidableEq, Repr

/-- Association-list lookup, modelling Python `dict` key lookup. -/
def alookup {α β : Type} [DecidableEq α] : α → List (α × β) → Option β
  | _, [] => none
  | a, (k, v) :: l => if a = k then some v else alookup a l

/-- Association-list update, modelling Python `dict` item assignment:
replace in place when the key is present, append otherwise. -/
def aupd {α β : Type} [DecidableEq α] : α → β → List (α × β) → List (α × β)
  | a, b, [] => [(a, b)]
  | a, b, (k, v) :: l => if a = k then (a, b) :: l else (k, v) :: aupd a b l

/-- One scope instance (a Python `Scope` object on the heap).
`store` models the `instances` attribute; `none` means the attribute was
never set.  `NamedScope.__init__` assigns only `self.name` and never calls
`Scope.__init__`, so a `NamedScope` instance has `store = none` and every
touch of `self.instances` raises `AttributeError`.  `sname` is the
caller-supplied name of a `NamedScope`.  `ThreadScope` storage is
thread-local; the embedding is single-threaded (no claim exercises a second
thread), so its store is a single mapping like the others. -/
structure ScopeInst where
  kind : ScopeKind
  sname : Option String
  store : Option (List (TKey × Value))
deriving DecidableEq, Repr

/-- `Scope.__key_transform__` dispatch: only `ProcessScope` overrides it. -/
def ScopeInst.transform (s : ScopeInst) (pid : Nat) (k : Key) : TKey :=
  match s.kind with
  | .process => .proc pid k
  | _ => .plain k

/-- `Scope.__getitem__`: transform the key, then index `self.instances`. -/
def ScopeInst.getItem (s : ScopeInst) (pid : Nat) (k : Key) : Except PyErr Value :=
  match s.store with
  | none => .error (.attributeError "instances")
  | some st =>
    match alookup (s.transform pid k) st with
    | some v => .ok v
    | none => .error (.keyError k)

/-- `Mapping.__contains__`: `try: self[key] except KeyError: return False`.
Exceptions other than `KeyError` (here: the `AttributeError` from a missing
`instances` attribute) propagate. -/
def ScopeInst.contains (s : ScopeInst) (pid : Nat) (k : Key) : Except PyErr Bool :=
  match s.getItem pid k with
  | .ok _ => .ok true
  | .error (.keyError _) => .ok false
  | .error e => .error e

/-- `Scope.__setitem__`; `NoneScope` overrides it with `return` (the write is
discarded before `self.instances` is ever touched). -/
def ScopeInst.setItem (s : ScopeInst) (pid : Nat) (k : Key) (v : Value) :
    Except PyErr ScopeInst :=
  match s.kind with
  | .none_ => .ok s
  | _ =>
    match s.store with
    | none => .error (.attributeError "instances")
    | some st => .ok { s with store := some (aupd (s.transform pid k) v st) }

/-- Keys of `ScopeRegistry._lookup`: scope names and scope class objects. -/
inductive ScopeKeyT where
  | name (s : String)
  | cls (k : ScopeKind)
deriving DecidableEq, Repr

/-- Values of `ScopeRegistry._lookup`: a scope class or a heap-resident scope
instance (installed under the class key by lazy instantiation in `get`). -/
inductive ScopeVal where
  | cls (k : ScopeKind)
  | inst (id : Nat)
deriving DecidableEq, Repr

/-- A scope reference as passed around by callers and `Registry`:
a string, a scope class, a scope instance (by heap id), a hashable object
that is neither a class nor a mapping (e.g. an integer), or a class that is
not a `MutableMapping` subclass. -/
inductive ScopeRef where
  | str (s : String)
  | cls (k : ScopeKind)
  | inst (id : Nat)
  | nonScope (n : Nat)
  | nonMapCls (n : Nat)
deriving DecidableEq, Repr

/-- Embed a stored `ScopeVal` back into a `ScopeRef` (the stored
`factory_scope` is later handed to `ScopeRegistry.get`). -/
def ScopeVal.toRef : ScopeVal → ScopeRef
  | .cls k => .cls k
  | .inst i => .inst i

/-- The full mutable state of one `Di` container.  `counter` and
`invocations` are ghost instrumentation: `counter` feeds fresh object
allocation and `invocations` counts calls per factory object. -/
structure DiState where
  scopeLookup : List (ScopeKeyT × ScopeVal)
  heap : List (Nat × ScopeInst)
  nextScopeId : Nat
  factories : List (Key × (Factory × ScopeVal))
  dependsObj : List (Key × List Key)
  counter : Nat
  invocations : List (Factory × Nat)
  pid : Nat
deriving DecidableEq, Repr

/-- `ScopeRegistry._build`: `Scope.__subclasses__()` filtered by the
`register` flag registers Singleton, Process, Thread and None under their
derived names (`NamedScope` has `register = False`; `Scope` itself is not its
own subclass). -/
def initialScopeLookup : List (ScopeKeyT × ScopeVal) :=
  [(.name "singleton", .cls .singleton),
   (.name "process", .cls .process),
   (.name "thread", .cls .thread),
   (.name "none", .cls .none_)]

/-- `Di.__init__`: fresh registries, nothing bound yet. -/
def Di.init : DiState :=
  ⟨initialScopeLookup, [], 0, [], [], 0, [], 0⟩

/-- `ScopeRegistry.resolve`.  Python 2 facts modelled here:
`collections.Mapping` sets `__hash__ = None`, so for a scope *instance* the
very first step `scope in self._lookup` raises
`TypeError: unhashable type`; for a string not in the lookup,
`is_scope` evaluates `issubclass('...', MutableMapping)` which raises
`TypeError` because the first argument is not a class (same for any other
non-class object); a hashable class that is not a `MutableMapping` subclass
reaches the final `raise KeyError`. -/
def ScopeRegistry.resolve (σ : DiState) (r : ScopeRef) : Except PyErr ScopeVal :=
  match r with
  | .str s =>
    match alookup (.name s) σ.scopeLookup with
    | some v => .ok v
    | none => .error (.typeError "issubclass() arg 1 must be a class")
  | .cls k =>
    match alookup (.cls k) σ.scopeLookup with
    | some v => .ok v
    | none => .ok (.cls k)
  | .inst _ => .error (.typeError "unhashable type")
  | .nonScope _ => .error (.typeError "issubclass() arg 1 must be a class")
  | .nonMapCls _ => .error (.keyError "Scope does not exist")

/-- Constructing `scope()` with no arguments during lazy instantiation.
`NamedScope()` raises `TypeError` (its `__init__` requires a name).  All
other scope classes initialize an empty `instances` mapping. -/
def mkScopeInst : ScopeKind → Except PyErr ScopeInst
  | .named => .error (.typeError "init takes exactly 2 arguments")
  | k => .ok ⟨k, none, some []⟩

/-- `ScopeRegistry.get`: resolve, then if the result is a class, lazily
instantiate it once (`self._lookup[scope] = scope()`) and resolve again.
Returns the heap id of the live scope instance. -/
def ScopeRegistry.get (σ : DiState) (r : ScopeRef) : Except PyErr Nat × DiState :=
  match ScopeRegistry.resolve σ r with
  | .error e => (.error e, σ)
  | .ok (.inst i) => (.ok i, σ)
  | .ok (.cls k) =>
    match alookup (.cls k) σ.scopeLookup with
    | some (.inst i) => (.ok i, σ)
    | some (.cls _) =>
      -- Unreachable through the public API: class keys in `_lookup` are only
      -- ever bound to instances (by the branch below).
      (.error (.typeError "class in scope position"), σ)
    | none =>
      match mkScopeInst k with
      | .error e => (.error e, σ)
      | .ok inst =>
        let id := σ.nextScopeId
        (.ok id,
         { σ with heap := aupd id inst σ.heap,
                  nextScopeId := id + 1,
                  scopeLookup := aupd (.cls k) (.inst id) σ.scopeLookup })

/-- `Registry.add`: eagerly resolve the scope reference (failing before the
binding is stored), then store `(factory, resolved_scope)`; re-registration
overwrites. -/
def Registry.add (σ : DiState) (key : Key) (factory : Factory) (scope : ScopeRef) :
    Except PyErr Unit × DiState :=
  match ScopeRegistry.resolve σ scope with
  | .error e => (.error e, σ)
  | .ok sv => (.ok (), { σ with factories := aupd key (factory, sv) σ.factories })

/-- `Registry.add_instance`: scope is forced to `'singleton'`, the factory is
`lambda: obj`. -/
def Registry.addInstance (σ : DiState) (key : Key) (obj : Value) :
    Except PyErr Unit × DiState :=
  Registry.add σ key (.const obj) (.str "singleton")

/-- `Registry.get`: raises `KeyError` when the key is unbound. -/
def Registry.get (σ : DiState) (key : Key) : Except PyErr (Factory × ScopeVal) :=
  match alookup key σ.factories with
  | some fs => .ok fs
  | none => .error (.keyError key)

/-- `Registry.has`. -/
def Registry.has (σ : DiState) (key : Key) : Bool :=
  (alookup key σ.factories).isSome

/-- `set.add` for each key in order (Python sets deduplicate; only
membership is observed downstream). -/
def addDepKeys : List Key → List Key → List Key
  | s, [] => s
  | s, k :: ks => addDepKeys (if k ∈ s then s else s ++ [k]) ks

/-- `DependencyRegistry.add`: with zero keys the loop body never runs, so the
`defaultdict` is never touched and no entry is created. -/
def DependencyRegistry.add (σ : DiState) (obj : Key) (keys : List Key) : DiState :=
  match keys with
  | [] => σ
  | _ =>
    let cur := (alookup obj σ.dependsObj).getD []
    { σ with dependsObj := aupd obj (addDepKeys cur keys) σ.dependsObj }

/-- `DependencyRegistry.get`: `None` when no dependencies were ever declared
for `obj`. -/
def DependencyRegistry.get (σ : DiState) (obj : Key) : Option (List Key) :=
  alookup obj σ.dependsObj

/-- `DependencyRegistry.missing`: `None` when `get` is falsy; otherwise the
`itertools.ifilterfalse(self._registry.has, deps)` iterator.  The iterator is
lazy; here it is materialized eagerly, which is observationally equivalent
for the container because the only consumer (`Di._resolve_one`) tests the
iterator's truthiness and never iterates it: `some l` corresponds exactly to
"an iterator object was returned" and an iterator object is always truthy. -/
def DependencyRegistry.missing (σ : DiState) (obj : Key) : Option (List Key) :=
  match DependencyRegistry.get σ obj with
  | none => none
  | some deps =>
    if deps = [] then none
    else some (deps.filter (fun k => ¬ Registry.has σ k))

/-- Ghost instrumentation: bump the invocation counter of a factory. -/
def bumpInv (l : List (Factory × Nat)) (f : Factory) : List (Factory × Nat) :=
  aupd f ((alookup f l).getD 0 + 1) l

/-- Ghost instrumentation: how many times a factory has been invoked. -/
def invCount (σ : DiState) (f : Factory) : Nat :=
  (alookup f σ.invocations).getD 0

/-- Call `factory()`: an ordinary factory returns a globally fresh object,
the `add_instance` closure returns its fixed object. -/
def invokeFactory (σ : DiState) (f : Factory) : Value × DiState :=
  let σ' := { σ with invocations := bumpInv σ.invocations f }
  match f with
  | .make _ => (.fresh σ.counter, { σ' with counter := σ.counter + 1 })
  | .const v => (v, σ')

/-- The argument of `resolve`/`depends_on`: a single string key or a single
non-string iterable of keys. -/
inductive KeyOrKeys where
  | str (k : Key)
  | iter (ks : List Key)
deriving DecidableEq, Repr

/-- An element of the coerced key list.  When multiple positional arguments
are given and the first one is itself a list, `_coerce_key_or_keys` appends
that list as a single element; such an element later fails hashing in
`Registry.get`. -/
inductive RKey where
  | s (k : Key)
  | lst (ks : List Key)
deriving DecidableEq, Repr

/-- `Di._coerce_key_or_keys` for a single argument: a string is one key, any
other single argument is treated as an iterable of keys. -/
def coerceSingle : KeyOrKeys → List Key
  | .str k => [k]
  | .iter l => l

/-- `Di._coerce_key_or_keys` with possible extra positional keys: when
`more_keys` is non-empty, the first argument is appended as one element
(a list stays one element) and the rest are appended after it. -/
def coerceKeyOrKeys (kok : KeyOrKeys) (more : List Key) : List RKey :=
  match more with
  | [] => (coerceSingle kok).map .s
  | _ =>
    (match kok with
     | .str k => RKey.s k
     | .iter l => RKey.lst l) :: more.map .s

/-- `Di.register` (the immediate, non-decorator form: a factory is given).
Returns the factory. -/
def Di.register (σ : DiState) (key : Key) (factory : Factory) (scope : ScopeRef) :
    Except PyErr Factory × DiState :=
  match Registry.add σ key factory scope with
  | (.error e, σ') => (.error e, σ')
  | (.ok _, σ') => (.ok factory, σ')

/-- `Di.register_instance`. -/
def Di.registerInstance (σ : DiState) (key : Key) (obj : Value) :
    Except PyErr Unit × DiState :=
  Registry.addInstance σ key obj

/-- `Di.depends_on(key_or_keys, obj=None)`.  When `obj` is omitted the source
evaluates `functools.partial(self.depends_on, keys_or_keys)` — but the name
`keys_or_keys` does not exist (the parameter is `key_or_keys`), so Python
raises `NameError: global name 'keys_or_keys' is not defined` before any
partial is returned.  With `obj` given, the keys are coerced and unioned into
the dependency set of `obj`, and `obj` is returned. -/
def Di.dependsOn (σ : DiState) (kok : KeyOrKeys) (obj : Option Key) :
    Except PyErr Key × DiState :=
  match obj with
  | none => (.error (.nameError "global name keys_or_keys is not defined"), σ)
  | some o => (.ok o, DependencyRegistry.add σ o (coerceSingle kok))

/-- `Di.scope()`: allocate a fresh base `Scope()` instance on the heap. -/
def Di.scope (σ : DiState) : Nat × DiState :=
  (σ.nextScopeId,
   { σ with heap := aupd σ.nextScopeId ⟨.base, none, some []⟩ σ.heap,
            nextScopeId := σ.nextScopeId + 1 })

/-- `Di.named_scope(name)`: allocate a `NamedScope(name)`.  Its `__init__`
sets only `self.name` and never calls `Scope.__init__`, so the `instances`
attribute is absent (`store = none`). -/
def Di.namedScope (σ : DiState) (name : String) : Nat × DiState :=
  (σ.nextScopeId,
   { σ with heap := aupd σ.nextScopeId ⟨.named, some name, none⟩ σ.heap,
            nextScopeId := σ.nextScopeId + 1 })

/-- `Di._resolve_one`.  Steps, exactly as in the source: fetch the binding
(`KeyError` if unbound; a list key is unhashable and raises `TypeError`);
test `if missing:` — `missing` is either `None` or an `ifilterfalse`
*iterator object*, and an iterator object is always truthy, so this raises
`UnresolvableError` whenever the key has any declared dependencies, bound or
not (the `%s`-formatted message contains the iterator's repr, not the missing
keys); acquire the live scope; on a cache hit return the cached value; on a
miss invoke the factory, store the result into the scope and return it. -/
def Di.resolveOne (σ : DiState) (rk : RKey) : Except PyErr Value × DiState :=
  match rk with
  | .lst _ => (.error (.typeError "unhashable type: list"), σ)
  | .s key =>
    match Registry.get σ key with
    | .error e => (.error e, σ)
    | .ok (factory, fscope) =>
      match DependencyRegistry.missing σ key with
      | some _ =>
        (.error (.unresolvable ("Missing dependencies for " ++ key ++
          ": ifilterfalse object")), σ)
      | none =>
        match ScopeRegistry.get σ fscope.toRef with
        | (.error e, σ₁) => (.error e, σ₁)
        | (.ok sid, σ₁) =>
          match alookup sid σ₁.heap with
          | none =>
            -- Unreachable: `ScopeRegistry.get` only returns ids of
            -- heap-resident instances.
            (.error (.keyError "scope instance missing"), σ₁)
          | some sc =>
            match sc.contains σ₁.pid key with
            | .error e => (.error e, σ₁)
            | .ok true =>
              match sc.getItem σ₁.pid key with
              | .error e => (.error e, σ₁)
              | .ok v => (.ok v, σ₁)
            | .ok false =>
              let vσ := invokeFactory σ₁ factory
              match sc.setItem vσ.2.pid key vσ.1 with
              | .error e => (.error e, vσ.2)
              | .ok sc' => (.ok vσ.1, { vσ.2 with heap := aupd sid sc' vσ.2.heap })

/-- `list(map(self._resolve_one, keys))`: left to right; an exception aborts
the traversal but keeps the state mutated so far. -/
def Di.resolveMany (σ : DiState) : List RKey → Except PyErr (List Value) × DiState
  | [] => (.ok [], σ)
  | rk :: rest =>
    match Di.resolveOne σ rk with
    | (.error e, σ') => (.error e, σ')
    | (.ok v, σ') =>
      match Di.resolveMany σ' rest with
      | (.error e, σ'') => (.error e, σ'')
      | (.ok vs, σ'') => (.ok (v :: vs), σ'')

/-- What `Di.resolve` returns: one value, one `(key, value)` pair, a list of
values, or a list of pairs. -/
inductive ResolveRet where
  | one (v : Value)
  | onePair (k : RKey) (v : Value)
  | many (vs : List Value)
  | manyPairs (ps : List (RKey × Value))
deriving DecidableEq, Repr

/-- `Di.resolve(key_or_keys, *more_keys, with_keys=False)`: coerce the keys,
resolve each, optionally zip with the keys, and — the source comment reads
"Always return a sequence when given multiple arguments" — return the whole
list only when `more_keys` is non-empty, otherwise return `ret[0]`
(an `IndexError` when the coerced key list is empty). -/
def Di.resolve (σ : DiState) (kok : KeyOrKeys) (more : List Key) (withKeys : Bool) :
    Except PyErr ResolveRet × DiState :=
  let keys := coerceKeyOrKeys kok more
  match Di.resolveMany σ keys with
  | (.error e, σ') => (.error e, σ')
  | (.ok vs, σ') =>
    match more with
    | _ :: _ =>
      if withKeys then (.ok (.manyPairs (keys.zip vs)), σ')
      else (.ok (.many vs), σ')
    | [] =>
      if withKeys then
        match keys.zip vs with
        | [] => (.error (.indexError "list index out of range"), σ')
        | p :: _ => (.ok (.onePair p.1 p.2), σ')
      else
        match vs with
        | [] => (.error (.indexError "list index out of range"), σ')
        | v :: _ => (.ok (.one v), σ')

/-- Module initialization: `di = Di(); di.register_instance('di', di)`.
The container object itself is the designated value `Value.diRef`. -/
def mainlineDi : DiState :=
  (Di.registerInstance Di.init "di" .diRef).2

/-! ## Scenario definitions used by the claim theorems -/

/-- C1 scenario: `k` is bound, `depends_on(['a','b'])` is declared for `k`,
and both `'a'` and `'b'` are themselves bound. -/
def c1AllBound : DiState :=
  (Di.register (Di.register
    (Di.dependsOn
      (Di.register Di.init "k" (.make 0) (.str "singleton")).2
      (.iter ["a", "b"]) (some "k")).2
    "a" (.make 1) (.str "singleton")).2
    "b" (.make 2) (.str "singleton")).2

/-- C2/C3 style setup: two keys bound to distinct factories in the singleton
scope on a fresh container. -/
def c2Setup (fa fb : Nat) : DiState :=
  (Di.register
    (Di.register Di.init "a" (.make fa) (.str "singleton")).2
    "b" (.make fb) (.str "singleton")).2

/-- C3 setup: one key bound to a factory in the singleton scope on a fresh
container. -/
def c3Setup (k : Key) (f : Nat) : DiState :=
  (Di.register Di.init k (.make f) (.str "singleton")).2

/-- First `resolve(k)` after the C3 setup. -/
def c3Resolve1 (k : Key) (f : Nat) : Except PyErr ResolveRet × DiState :=
  Di.resolve (c3Setup k f) (.str k) [] false

/-- Second consecutive `resolve(k)`. -/
def c3Resolve2 (k : Key) (f : Nat) : Except PyErr ResolveRet × DiState :=
  Di.resolve (c3Resolve1 k f).2 (.str k) [] false

/-- C5 setup: one key bound to a factory in the `'none'` scope on a fresh
container. -/
def c5Setup (k : Key) (f : Nat) : DiState :=
  (Di.register Di.init k (.make f) (.str "none")).2

/-- Iterate `resolve(k)` N times, threading the container state. -/
def resolveNTimes (σ : DiState) (k : Key) : Nat → DiState
  | 0 => σ
  | n + 1 => resolveNTimes (Di.resolve σ (.str k) [] false).2 k n

/-- The container state after the C5 setup and `n ≥ 1` resolutions of `k`
(the `NoneScope` has been lazily instantiated as heap object 0; its store is
empty because its writes are discarded; the factory has run `n` times). -/
def c5State (k : Key) (f : Nat) (n : Nat) : DiState :=
  ⟨initialScopeLookup ++ [(.cls .none_, .inst 0)],
   [(0, ⟨.none_, none, some []⟩)], 1,
   [(k, (.make f, .cls .none_))], [], n, [(.make f, n)], 0⟩

/-- Modelled from the spec: "an object or class satisfying the scope mapping
interface" (C6's notion of a valid scope reference besides registered names)
— scope classes and scope instances satisfy it, nothing else does. -/
def specScopeInterface : ScopeRef → Bool
  | .cls _ => true
  | .inst _ => true
  | _ => false

/-- The scope references the code actually accepts eagerly at `register`
time: a name registered in the scope lookup, or a scope class.  Scope
*instances* are rejected by the `scope in self._lookup` membership test
(`Mapping.__hash__ = None` makes them unhashable). -/
def eagerRegisterOk : ScopeRef → Bool
  | .str s => s = "singleton" ∨ s = "process" ∨ s = "thread" ∨ s = "none"
  | .cls _ => true
  | .inst _ => false
  | .nonScope _ => false
  | .nonMapCls _ => false

/-- C8 scenario: a caller-created `NamedScope('custom')` on a fresh
container. -/
def c8Pair : Nat × DiState :=
  Di.namedScope Di.init "custom"

/-- The `NamedScope('custom')` instance itself: `__init__` sets only the
name, so the `instances` store is absent. -/
def c8NamedInst : ScopeInst :=
  ⟨.named, some "custom", none⟩

/-- C6 counterexample scenario: a plain `Scope()` instance created by
`di.scope()` and passed by reference. -/
def c6Pair : Nat × DiState :=
  Di.scope Di.init

/-- Every lookup result of `old` is preserved in `nw` (used to state that
`resolve` only ever extends `ScopeRegistry._lookup`). -/
def lookupPreserved (old nw : List (ScopeKeyT × ScopeVal)) : Bool :=
  (old.map Prod.fst).all (fun q => decide (alookup q nw = alookup q old))

/-- Every heap object other than `sid` is unchanged from `old` to `nw` (used
to state that `resolve` touches at most one scope instance's store). -/
def heapPreservedExcept (sid : Nat) (old nw : List (Nat × ScopeInst)) : Bool :=
  (old.map Prod.fst).all (fun j => decide (j = sid) || decide (alookup j nw = alookup j old))

/-! ## Association-list lemmas -/

theorem alookup_aupd_ne {α β : Type} [DecidableEq α] (q a : α) (b : β)
    (l : List (α × β)) (h : q ≠ a) : alookup q (aupd a b l) = alookup q l := by
  induction l with
  | nil => simp [alookup, aupd, h]
  | cons kv l ih =>
    obtain ⟨k, v⟩ := kv
    by_cases hak : a = k
    · subst hak
      simp [alookup, aupd, h]
    · simp only [aupd, if_neg hak, alookup]
      by_cases hqk : q = k
      · simp [hqk]
      · simp [hqk, ih]

theorem alookup_isSome_of_mem {α β : Type} [DecidableEq α] (a : α)
    (l : List (α × β)) (h : a ∈ l.map Prod.fst) : (alookup a l).isSome := by
  induction l with
  | nil => simp at h
  | cons kv l ih =>
    obtain ⟨k, v⟩ := kv
    by_cases hak : a = k
    · simp [alookup, hak]
    · simp only [List.map_cons, List.mem_cons] at h
      rcases h with h | h
    
      · exact absurd h hak
      · simp [alookup, hak, ih h]

theorem lookupPreserved_refl (l : List (ScopeKeyT × ScopeVal)) :
    lookupPreserved l l = true := by
  simp [lookupPreserved, List.all_eq_true]

theorem lookupPreserved_aupd_new (a : ScopeKeyT) (b : ScopeVal)
    (l : List (ScopeKeyT × ScopeVal)) (h : alookup a l = none) :
    lookupPreserved l (aupd a b l) = true := by
  simp only [lookupPreserved, List.all_eq_true]
  intro q hq
  have hne : q ≠ a := by
    intro he
    subst he
    have := alookup_isSome_of_mem q l hq
    rw [h] at this
    simp at this
  simp [alookup_aupd_ne _ _ _ _ hne]

theorem heapPreservedExcept_refl (sid : Nat) (l : List (Nat × ScopeInst)) :
    heapPreservedExcept sid l l = true := by
  simp [heapPreservedExcept, List.all_eq_true]

theorem heapPreservedExcept_aupd (sid : Nat) (b : ScopeInst)
    (l : List (Nat × ScopeInst)) :
    heapPreservedExcept sid l (aupd sid b l) = true := by
  simp only [heapPreservedExcept, List.all_eq_true]
  intro j hj
  by_cases hjs : j = sid
  · simp [hjs]
  · simp [hjs, alookup_aupd_ne _ _ _ _ hjs]

theorem heapPreservedExcept_aupd2 (sid : Nat) (b b' : ScopeInst)
    (l : List (Nat × ScopeInst)) :
    heapPreservedExcept sid l (aupd sid b' (aupd sid b l)) = true := by
  simp only [heapPreservedExcept, List.all_eq_true]
  intro j hj
  by_cases hjs : j = sid
  · simp [hjs]
  · simp [hjs, alookup_aupd_ne _ _ _ _ hjs]

/-! ## Claim theorems -/

/-- C1 (code bug): with `k` bound, `depends_on(['a','b'])` declared for `k`,
and both `'a'` and `'b'` registered, `resolve('k')` still raises
`UnresolvableError`: `Di._resolve_one` tests `if missing:` on the
`itertools.ifilterfalse` iterator object returned by
`DependencyRegistry.missing`, and an iterator object is always truthy even
when it would yield nothing, so every key with any declared dependencies is
unresolvable — contradicting the claim (and the spec) that resolution
proceeds once all declared dependency keys are bound. -/
theorem c1_resolve_raises_despite_all_deps_bound :
    Registry.has c1AllBound "a" = true
    ∧ Registry.has c1AllBound "b" = true
    ∧ DependencyRegistry.get c1AllBound "k" = some ["a", "b"]
    ∧ (Di.resolve c1AllBound (.str "k") [] false).1 =
        .error (.unresolvable "Missing dependencies for k: ifilterfalse object") := by
  exact ⟨rfl, rfl, rfl, rfl⟩

/-- C2 counterexample: with `'a'` and `'b'` singleton-bound,
`resolve(['a','b','a'])` (one explicit list argument) does not return a
3-element sequence: `Di.resolve` returns `ret[0]` whenever `more_keys` is
empty, so the call returns only the first resolved value — although all
three keys were resolved (two factory constructions happened). -/
theorem c2_list_form_returns_first_value_only :
    (Di.resolve (c2Setup 0 1) (.iter ["a", "b", "a"]) [] false).1 =
      .ok (.one (.fresh 0))
    ∧ (Di.resolve (c2Setup 0 1) (.iter ["a", "b", "a"]) [] false).2.counter = 2 := by
  exact ⟨rfl, rfl⟩

/-- C2 (amended): variadic multi-key calls (`more_keys` non-empty) return one
value per requested key in request order, duplicates allowed, and the two
positions of the duplicated singleton-scoped key `'a'` hold the identical
instance; a single explicit list argument resolves every listed key in order
(both factories run, as `counter = 2` shows) but returns only the first
key's value. -/
theorem c2_variadic_sequence_order_and_duplicates (fa fb : Nat) :
    (Di.resolve (c2Setup fa fb) (.str "a") ["b", "a"] false).1 =
      .ok (.many [.fresh 0, .fresh 1, .fresh 0])
    ∧ (Di.resolve (c2Setup fa fb) (.iter ["a", "b", "a"]) [] false).1 =
        .ok (.one (.fresh 0))
    ∧ (Di.resolve (c2Setup fa fb) (.iter ["a", "b", "a"]) [] false).2.counter = 2 := by
  refine ⟨rfl, rfl, rfl⟩

/-- C4 (code bug): calling `depends_on` with `obj` omitted (the decorator
form) always raises `NameError`: the source builds
`functools.partial(self.depends_on, keys_or_keys)` but the name
`keys_or_keys` does not exist (the parameter is `key_or_keys`), so no
decorator is ever returned and the state is untouched. -/
theorem c4_depends_on_decorator_raises_name_error (σ : DiState) (kok : KeyOrKeys) :
    Di.dependsOn σ kok none =
      (.error (.nameError "global name keys_or_keys is not defined"), σ) := by
  rfl

/-- C8 (code bug): a caller-created `NamedScope` cannot be used as a scope.
Registering a binding with the instance as its scope raises `TypeError` at
`register` time (the `scope in self._lookup` membership test hashes the
instance, and `collections.Mapping` sets `__hash__ = None`); and even taken
by itself, the scope's membership test and write raise `AttributeError`
because `NamedScope.__init__` never calls `Scope.__init__`, so the
`instances` store is absent. -/
theorem c8_named_scope_unusable :
    (Di.register c8Pair.2 "k" (.make 0) (.inst c8Pair.1)).1 =
      .error (.typeError "unhashable type")
    ∧ alookup c8Pair.1 c8Pair.2.heap = some c8NamedInst
    ∧ ScopeInst.contains c8NamedInst 0 "k" = .error (.attributeError "instances")
    ∧ ScopeInst.setItem c8NamedInst 0 "k" (.fresh 0) =
        .error (.attributeError "instances") := by
  exact ⟨rfl, rfl, rfl, rfl⟩

/-- C9 counterexample: a freshly constructed `Di` has no `"di"` binding —
only the module-level container is self-registered (by the module-toplevel
`di.register_instance('di', di)`, not by `Di.__init__`) — so `resolve('di')`
on a fresh container raises `KeyError`. -/
theorem c9_fresh_di_has_no_di_binding :
    (Di.resolve Di.init (.str "di") [] false).1 = .error (.keyError "di") := by
  rfl

/-- C9 (amended): on the module-level container, `"di"` is bound in the
singleton scope to a factory returning the container object itself, and
`resolve("di")` returns exactly that object. -/
theorem c9_module_di_resolves_to_itself :
    alookup "di" mainlineDi.factories = some (.const .diRef, .cls .singleton)
    ∧ (Di.resolve mainlineDi (.str "di") [] false).1 = .ok (.one .diRef) := by
  exact ⟨rfl, rfl⟩

/-- C3 (confirmed): on a fresh container with `k` bound via
`register(k, f, 'singleton')` and no declared dependencies, the first
`resolve(k)` constructs and returns a fresh instance, the second consecutive
`resolve(k)` returns the identical instance from the singleton scope cache,
and the factory is invoked exactly once across both calls. -/
theorem c3_singleton_identical_instance_single_invocation (k : Key) (f : Nat) :
    (c3Resolve1 k f).1 = .ok (.one (.fresh 0))
    ∧ (c3Resolve2 k f).1 = .ok (.one (.fresh 0))
    ∧ invCount (c3Resolve2 k f).2 (.make f) = 1 := by
  refine ⟨?_, ?_, ?_⟩ <;>
    simp [c3Resolve1, c3Resolve2, c3Setup, Di.resolve, Di.resolveMany, Di.resolveOne,
      Di.register, Registry.add, Registry.get, ScopeRegistry.resolve, ScopeRegistry.get,
      DependencyRegistry.missing, DependencyRegistry.get, initialScopeLookup, Di.init,
      alookup, aupd, coerceKeyOrKeys, coerceSingle, mkScopeInst, ScopeVal.toRef,
      ScopeInst.contains, ScopeInst.getItem, ScopeInst.setItem, ScopeInst.transform,
      invokeFactory, bumpInv, invCount]

/-- C7 (confirmed): `register_instance(k, v)` on a fresh container always
binds `k` in the singleton scope (`add_instance` hard-codes the scope; there
is no scope parameter a caller could pass), and a subsequent `resolve(k)`
returns exactly the object `v`. -/
theorem c7_register_instance_forced_singleton_returns_object (k : Key) (v : Value) :
    alookup k (Di.registerInstance Di.init k v).2.factories =
      some (.const v, .cls .singleton)
    ∧ (Di.resolve (Di.registerInstance Di.init k v).2 (.str k) [] false).1 =
        .ok (.one v) := by
  refine ⟨?_, ?_⟩ <;>
    simp [Di.registerInstance, Registry.addInstance, Registry.add, Registry.get,
      Di.resolve, Di.resolveMany, Di.resolveOne, ScopeRegistry.resolve,
      ScopeRegistry.get, DependencyRegistry.missing, DependencyRegistry.get,
      initialScopeLookup, Di.init, alookup, aupd, coerceKeyOrKeys, coerceSingle,
      mkScopeInst, ScopeVal.toRef, ScopeInst.contains, ScopeInst.getItem,
      ScopeInst.setItem, ScopeInst.transform, invokeFactory, bumpInv, invCount]

/-- One `resolve(k)` step from the characterized C5 state: the `'none'`-scope
cache never hits (the store stays empty because `NoneScope.__setitem__`
discards the write), so the factory runs, a fresh object is returned, and
the invocation count and allocation counter each advance by one. -/
theorem c5_resolve_step (k : Key) (f : Nat) (n : Nat) :
    Di.resolve (c5State k f n) (.str k) [] false =
      (.ok (.one (.fresh n)), c5State k f (n + 1)) := by
  simp [c5State, Di.resolve, Di.resolveMany, Di.resolveOne, Registry.get,
    ScopeRegistry.resolve, ScopeRegistry.get, DependencyRegistry.missing,
    DependencyRegistry.get, initialScopeLookup, alookup, aupd, coerceKeyOrKeys,
    coerceSingle, mkScopeInst, ScopeVal.toRef, ScopeInst.contains,
    ScopeInst.getItem, ScopeInst.setItem, ScopeInst.transform, invokeFactory,
    bumpInv, invCount]

/-- The first `resolve(k)` after the C5 setup lazily instantiates the
`NoneScope` and lands in the characterized C5 state with one invocation. -/
theorem c5_resolve_base (k : Key) (f : Nat) :
    Di.resolve (c5Setup k f) (.str k) [] false =
      (.ok (.one (.fresh 0)), c5State k f 1) := by
  simp [c5Setup, c5State, Di.register, Registry.add, Di.resolve, Di.resolveMany,
    Di.resolveOne, Registry.get, ScopeRegistry.resolve, ScopeRegistry.get,
    DependencyRegistry.missing, DependencyRegistry.get, initialScopeLookup, Di.init,
    alookup, aupd, coerceKeyOrKeys, coerceSingle, mkScopeInst, ScopeVal.toRef,
    ScopeInst.contains, ScopeInst.getItem, ScopeInst.setItem, ScopeInst.transform,
    invokeFactory, bumpInv, invCount]

/-- Iterating `resolve(k)` from a characterized C5 state adds one invocation
per call. -/
theorem c5_resolve_iterate (k : Key) (f : Nat) (m : Nat) :
    ∀ n : Nat, resolveNTimes (c5State k f n) k m = c5State k f (n + m) := by
  induction m with
  | zero => intro n; simp [resolveNTimes]
  | succ p ih =>
    intro n
    show resolveNTimes (Di.resolve (c5State k f n) (.str k) [] false).2 k p =
      c5State k f (n + (p + 1))
    rw [c5_resolve_step]
    have := ih (n + 1)
    rw [this]
    congr 1
    omega

/-- C5 (confirmed): for `k` bound in the `'none'` scope on a fresh container,
`N` consecutive `resolve(k)` calls invoke the factory exactly `N` times, and
`N` distinct fresh instances are constructed (the allocation counter reaches
`N`): the discarded store means the cache-hit path never succeeds. -/
theorem c5_none_scope_invokes_factory_every_time (k : Key) (f : Nat) (N : Nat) :
    invCount (resolveNTimes (c5Setup k f) k N) (.make f) = N
    ∧ (resolveNTimes (c5Setup k f) k N).counter = N := by
  cases N with
  | zero =>
    constructor <;> simp [resolveNTimes, c5Setup, Di.register, Registry.add,
      ScopeRegistry.resolve, initialScopeLookup, Di.init, alookup, aupd, invCount]
  | succ m =>
    have h1 : resolveNTimes (c5Setup k f) k (m + 1) = c5State k f (1 + m) := by
      show resolveNTimes (Di.resolve (c5Setup k f) (.str k) [] false).2 k m =
        c5State k f (1 + m)
      rw [c5_resolve_base]
      exact c5_resolve_iterate k f m 1
    rw [h1]
    constructor
    · simp [c5State, invCount, alookup]
      omega
    · simp [c5State]
      omega

/-- C6 counterexample: a live `Scope()` instance satisfies the scope mapping
interface — per the claim, a valid scope reference — yet passing it to
`register` on a fresh container fails with `TypeError` (the
`scope in self._lookup` membership test hashes it, and `collections.Mapping`
sets `__hash__ = None`, making every `Scope` instance unhashable); no binding
is added. -/
theorem c6_scope_instance_reference_fails_at_register :
    specScopeInterface (.inst c6Pair.1) = true
    ∧ (Di.register c6Pair.2 "k" (.make 0) (.inst c6Pair.1)).1 =
        .error (.typeError "unhashable type")
    ∧ (Di.register c6Pair.2 "k" (.make 0) (.inst c6Pair.1)).2 = c6Pair.2 := by
  exact ⟨rfl, rfl, rfl⟩

/-- C6 (amended): on a fresh container, `register(key, factory, scope)`
succeeds exactly for scope references that are registered scope names
(`'singleton'`, `'process'`, `'thread'`, `'none'`) or scope classes; every
other reference — unknown names such as `'bogus'`, non-mapping objects and
classes, and also scope *instances* passed by reference (they are unhashable)
— makes `register` fail immediately, at registration time, leaving the
container unchanged (no binding added, no resolution attempted). -/
theorem c6_register_eager_validation (key : Key) (f : Factory) (ref : ScopeRef) :
    ((Di.register Di.init key f ref).1 = .ok f ↔ eagerRegisterOk ref = true)
    ∧ (eagerRegisterOk ref = false → (Di.register Di.init key f ref).2 = Di.init) := by
  cases ref with
  | str s =>
    by_cases h1 : s = "singleton" <;> by_cases h2 : s = "process" <;>
      by_cases h3 : s = "thread" <;> by_cases h4 : s = "none" <;>
      simp_all [Di.register, Registry.add, ScopeRegistry.resolve, eagerRegisterOk,
        initialScopeLookup, Di.init, alookup, aupd]
  | cls k =>
    simp [Di.register, Registry.add, ScopeRegistry.resolve, eagerRegisterOk,
      initialScopeLookup, Di.init, alookup, aupd]
  | inst i =>
    simp [Di.register, Registry.add, ScopeRegistry.resolve, eagerRegisterOk]
  | nonScope n =>
    simp [Di.register, Registry.add, ScopeRegistry.resolve, eagerRegisterOk]
  | nonMapCls n =>
    simp [Di.register, Registry.add, ScopeRegistry.resolve, eagerRegisterOk]

/-- Witness for the amended C6 theorem at the spec's own example `'bogus'`:
the reference is invalid, and registration leaves the fresh container
unchanged. -/
theorem c6_register_eager_validation_witness :
    eagerRegisterOk (.str "bogus") = false
    ∧ (Di.register Di.init "k" (.make 0) (.str "bogus")).2 = Di.init :=
  ⟨by decide, (c6_register_eager_validation "k" (.make 0) (.str "bogus")).2 (by decide)⟩

@[simp] theorem invokeFactory_factories (σ : DiState) (f : Factory) :
    (invokeFactory σ f).2.factories = σ.factories := by cases f <;> rfl

@[simp] theorem invokeFactory_dependsObj (σ : DiState) (f : Factory) :
    (invokeFactory σ f).2.dependsObj = σ.dependsObj := by cases f <;> rfl

@[simp] theorem invokeFactory_scopeLookup (σ : DiState) (f : Factory) :
    (invokeFactory σ f).2.scopeLookup = σ.scopeLookup := by cases f <;> rfl

@[simp] theorem invokeFactory_heap (σ : DiState) (f : Factory) :
    (invokeFactory σ f).2.heap = σ.heap := by cases f <;> rfl

/-- `ScopeRegistry.get` either leaves the state untouched, or performs
exactly one lazy instantiation: it returns the fresh id `σ.nextScopeId`,
allocates the new scope instance there, and installs it in the lookup under
a class key that was previously absent. -/
theorem scopeGet_cases (σ : DiState) (r : ScopeRef) :
    (ScopeRegistry.get σ r).2 = σ
    ∨ ∃ (k : ScopeKind) (sc : ScopeInst),
        (ScopeRegistry.get σ r).1 = .ok σ.nextScopeId
        ∧ alookup (.cls k) σ.scopeLookup = none
        ∧ (ScopeRegistry.get σ r).2 =
            { σ with heap := aupd σ.nextScopeId sc σ.heap,
                     nextScopeId := σ.nextScopeId + 1,
                     scopeLookup := aupd (.cls k) (.inst σ.nextScopeId) σ.scopeLookup } := by
  simp only [ScopeRegistry.get]
  split
  · exact Or.inl rfl
  · exact Or.inl rfl
  next k heq =>
    split
    · exact Or.inl rfl
    · exact Or.inl rfl
    next hl =>
      split
      · exact Or.inl rfl
      next sc hmk => exact Or.inr ⟨k, sc, rfl, hl, rfl⟩

/-- Frame property of one resolution step: whether it returns a value or
fails, `Di._resolve_one` never changes the `Registry` binding table or the
`DependencyRegistry` map; it only ever extends `ScopeRegistry._lookup` (lazy
instantiation never overwrites an existing entry) and modifies at most one
scope instance on the heap. -/
theorem resolveOne_frame (σ : DiState) (rk : RKey) :
    (Di.resolveOne σ rk).2.factories = σ.factories
    ∧ (Di.resolveOne σ rk).2.dependsObj = σ.dependsObj
    ∧ lookupPreserved σ.scopeLookup (Di.resolveOne σ rk).2.scopeLookup = true
    ∧ ∃ sid, heapPreservedExcept sid σ.heap (Di.resolveOne σ rk).2.heap = true := by
  cases rk with
  | lst ks =>
    exact ⟨rfl, rfl, lookupPreserved_refl _, 0, heapPreservedExcept_refl _ _⟩
  | s key =>
    simp only [Di.resolveOne]
    split
    · exact ⟨rfl, rfl, lookupPreserved_refl _, 0, heapPreservedExcept_refl _ _⟩
    next factory fscope hget =>
      split
      · exact ⟨rfl, rfl, lookupPreserved_refl _, 0, heapPreservedExcept_refl _ _⟩
      next hmiss =>
        split
        next e σ₁ hsg =>
          rcases scopeGet_cases σ fscope.toRef with hid | ⟨k, sc, hres, hnone, hst⟩
          · rw [hsg] at hid
            simp only at hid
            subst hid
            exact ⟨rfl, rfl, lookupPreserved_refl _, 0, heapPreservedExcept_refl _ _⟩
          · rw [hsg] at hres
            simp at hres
        next sid σ₁ hsg =>
          rcases scopeGet_cases σ fscope.toRef with hid | ⟨k, sc, hres, hnone, hst⟩
          · rw [hsg] at hid
            simp only at hid
            subst hid
            split
            · exact ⟨rfl, rfl, lookupPreserved_refl _, 0, heapPreservedExcept_refl _ _⟩
            next sc2 hheap =>
              split
              · exact ⟨rfl, rfl, lookupPreserved_refl _, 0, heapPreservedExcept_refl _ _⟩
              · split
                · exact ⟨rfl, rfl, lookupPreserved_refl _, 0,
                    heapPreservedExcept_refl _ _⟩
                · exact ⟨rfl, rfl, lookupPreserved_refl _, 0,
                    heapPreservedExcept_refl _ _⟩
              · split
                · exact ⟨by simp, by simp, by simp [lookupPreserved_refl], 0,
                    by simp [heapPreservedExcept_refl]⟩
                next sc' hset =>
                  refine ⟨by simp, by simp, by simp [lookupPreserved_refl], sid, ?_⟩
                  simp [heapPreservedExcept_aupd]
          · rw [hsg] at hres hst
            simp only at hres hst
            simp only [Except.ok.injEq] at hres
            subst hres
            subst hst
            split
            · exact ⟨rfl, rfl, lookupPreserved_aupd_new _ _ _ hnone,
                σ.nextScopeId, heapPreservedExcept_aupd _ _ _⟩
            next sc2 hheap =>
              split
              · exact ⟨rfl, rfl, lookupPreserved_aupd_new _ _ _ hnone,
                  σ.nextScopeId, heapPreservedExcept_aupd _ _ _⟩
              · split
                · exact ⟨rfl, rfl, lookupPreserved_aupd_new _ _ _ hnone,
                    σ.nextScopeId, heapPreservedExcept_aupd _ _ _⟩
                · exact ⟨rfl, rfl, lookupPreserved_aupd_new _ _ _ hnone,
                    σ.nextScopeId, heapPreservedExcept_aupd _ _ _⟩
              · split
                · exact ⟨by simp, by simp,
                    by simp [lookupPreserved_aupd_new _ _ _ hnone],
                    σ.nextScopeId, by simp [heapPreservedExcept_aupd]⟩
                next sc' hset =>
                  refine ⟨by simp, by simp,
                    by simp [lookupPreserved_aupd_new _ _ _ hnone],
                    σ.nextScopeId, ?_⟩
                  simp [heapPreservedExcept_aupd2]

/-- A single-key `resolve(k)` call threads exactly the state of one
`_resolve_one` step. -/
theorem resolve_single_state (σ : DiState) (k : Key) :
    (Di.resolve σ (.str k) [] false).2 = (Di.resolveOne σ (.s k)).2 := by
  rcases h : Di.resolveOne σ (.s k) with ⟨r, σ'⟩
  cases r <;> simp [Di.resolve, Di.resolveMany, coerceKeyOrKeys, coerceSingle, h]

/-- C10 (confirmed): for every container state and key, `resolve(k)` —
whether it returns a value or fails — leaves the `Registry` binding table
and the `DependencyRegistry` declared-dependency map unchanged; every
existing entry of `ScopeRegistry._lookup` still resolves to the same value
(the table is only extended, by lazy scope instantiation); and at most one
heap-resident scope instance (the one `k`'s binding resolves to, or the one
freshly instantiated for it) differs afterwards.  (`counter` and
`invocations` are ghost instrumentation fields, not program state.) -/
theorem c10_resolve_mutates_only_scope_state (σ : DiState) (k : Key) :
    (Di.resolve σ (.str k) [] false).2.factories = σ.factories
    ∧ (Di.resolve σ (.str k) [] false).2.dependsObj = σ.dependsObj
    ∧ lookupPreserved σ.scopeLookup (Di.resolve σ (.str k) [] false).2.scopeLookup = true
    ∧ ∃ sid, heapPreservedExcept sid σ.heap (Di.resolve σ (.str k) [] false).2.heap = true := by
  rw [resolve_single_state]
  exact resolveOne_frame σ (.s k)
